import Mathlib

/-!
Verification of the Sticker Placement & Texture-Baking Engine.

This file is a shallow embedding of the engine's core: the sticker stack
mutations, the pointer-gesture math (drag / resize / rotate), the crop
commit, and the bake pipeline (background fill, sequential sticker
compositing, material reassignment).

Modelling conventions:
- JavaScript numbers are modelled as rationals (ℚ); `Math.round` is
  `jsRound` (floor of x + 1/2, matching round-half-up toward +inf) and the
  JS `%` operator is `jsRem` (remainder with truncation toward zero).
- Images and canvases are pixel-sampling functions `ℚ × ℚ → Option String`:
  `none` is a transparent sample, `some c` an opaque pixel of CSS color `c`.
  An `Img` is sampled in normalized [0,1]² source coordinates; a `Canvas`
  in destination pixel coordinates.  Pixel coverage of a draw call is
  modelled pointwise with half-open rectangles.
- `Math.atan2`, `Math.cos` and `Math.sin` are irrational; the degree-to-
  (cos, sin) conversion used by canvas rotation is abstracted as a
  parameter `trig : ℚ → ℚ × ℚ`, and the pointer angle delivered by atan2
  is taken as an input of the rotating branch.
- Image decode (`new Image(); img.onload / img.onerror`) is a function
  `ImgSrc → Option DecodedImg`: `none` models a decode failure.
-/

/-- `Math.round`: round half up (toward +inf), as a rational. -/
def jsRound (x : ℚ) : ℚ := ((⌊x + 1 / 2⌋ : ℤ) : ℚ)

/-- Truncation toward zero, as used by the JS `%` operator. -/
def ratTrunc (x : ℚ) : ℤ := if 0 ≤ x then ⌊x⌋ else -⌊-x⌋

/-- The JS `%` operator on finite numbers: `a - b * trunc (a / b)`.
The result has the sign of the dividend `a`. -/
def jsRem (a b : ℚ) : ℚ := a - b * ((ratTrunc (a / b) : ℤ) : ℚ)

/-- An image source reference: either an external / data URL string, or the
export of an offscreen canvas (`canvas.toDataURL()` is modelled by keeping
the canvas pixels and dimensions themselves). -/
inductive ImgSrc where
  | url (s : String)
  | canvasExport (sample : ℚ × ℚ → Option String) (width : ℚ) (height : ℚ)

/-- A pixel-sampling function in normalized [0,1]² source coordinates. -/
abbrev Img : Type := ℚ × ℚ → Option String

/-- A canvas: pixel-sampling in destination pixel coordinates,
`none` = transparent (a freshly created canvas is fully transparent). -/
abbrev Canvas : Type := ℚ × ℚ → Option String

/-- A successfully decoded image: its sample function and natural size
(`img.width`, `img.height`). -/
structure DecodedImg where
  sample : Img
  width : ℚ
  height : ℚ

/-- Crop rectangle in percent-of-image units (part_004 `Sticker.crop`). -/
structure CropRect where
  x : ℚ
  y : ℚ
  width : ℚ
  height : ℚ
deriving DecidableEq

/-- `ColorGradingParams` from colorGradingUtils.ts. -/
structure ColorGradingParams where
  brightness : ℚ
  exposure : ℚ
  contrast : ℚ
  saturation : ℚ
  hue : ℚ
  temperature : ℚ
  tint : ℚ
  vibrance : ℚ
  highlights : ℚ
  shadows : ℚ
  gamma : ℚ
deriving DecidableEq

/-- `DEFAULT_COLOR_GRADING` from colorGradingUtils.ts. -/
def DEFAULT_COLOR_GRADING : ColorGradingParams :=
  { brightness := 0, exposure := 0, contrast := 0, saturation := 0, hue := 0,
    temperature := 0, tint := 0, vibrance := 0, highlights := 0, shadows := 0,
    gamma := 1 }

/-- The `Sticker` record of part_004 (the editor page). -/
structure Sticker where
  id : String
  src : ImgSrc
  originalSrc : Option ImgSrc
  uvX : ℚ
  uvY : ℚ
  scale : ℚ
  width : ℚ
  height : ℚ
  rotation : ℚ
  aspectRatio : ℚ
  zIndex : ℕ
  crop : Option CropRect
  colorGrading : Option ColorGradingParams

/-- The sticker built in `addStickerFromDataUrl`'s `img.onload` callback
(part_004 lines 139-156).  `stickersLen` is the value of `stickers.length`
captured by the callback's closure: the length of the `stickers` state as
of the render in which `addStickerFromDataUrl` was created, NOT necessarily
the length of the array the sticker is appended to. -/
def mkUploadedSticker (id : String) (dataUrl : ImgSrc) (imgW imgH : ℚ)
    (stickersLen : ℕ) : Sticker :=
  let aspect : ℚ := if imgW ≠ 0 ∧ imgH ≠ 0 then imgW / imgH else 1
  { id := id
    src := dataUrl
    originalSrc := some dataUrl
    uvX := 1 / 2
    uvY := 1 / 2
    scale := 3 / 20
    width := 100
    height := jsRound (100 / aspect)
    rotation := 0
    aspectRatio := aspect
    zIndex := stickersLen
    crop := some { x := 0, y := 0, width := 100, height := 100 }
    colorGrading := some DEFAULT_COLOR_GRADING }

/-- The state update of `addStickerFromDataUrl`:
`setStickers(prev => [...prev, newSticker])` (part_004 lines 157-161). -/
def addSticker (newSticker : Sticker) (prev : List Sticker) : List Sticker :=
  prev ++ [newSticker]

/-- `.map((s, i) => ({ ...s, zIndex: i }))`: re-derive every zIndex as the
element's array index. -/
def reindexZ (l : List Sticker) : List Sticker :=
  l.mapIdx fun i s => { s with zIndex := i }

/-- `deleteSelected` / the thumbnail delete button (part_004 lines 443 and
1028): `prev.filter(s => s.id !== idToRemove).map((s, i) => ({...s, zIndex: i}))`. -/
def deleteStickerById (idToRemove : String) (prev : List Sticker) : List Sticker :=
  reindexZ (prev.filter fun s => s.id ≠ idToRemove)

/-- `bringForward` (part_004 lines 450-455): splice the selected element out,
push it to the end, re-derive all zIndexes.  (For an in-range index
`prev.get? idx` is `some`; the splice of an out-of-range index is a no-op.) -/
def bringForward (idx : ℕ) (prev : List Sticker) : List Sticker :=
  reindexZ (prev.eraseIdx idx ++ (prev.get? idx).toList)

/-- `sendBackward` (part_004 lines 463-468): splice the selected element out,
unshift it to the front, re-derive all zIndexes. -/
def sendBackward (idx : ℕ) (prev : List Sticker) : List Sticker :=
  reindexZ ((prev.get? idx).toList ++ prev.eraseIdx idx)

/-- The stack's core invariant: every sticker's `zIndex` equals its index in
the array, so the zIndex values form the contiguous sequence 0..N-1. -/
def zOk (l : List Sticker) : Prop :=
  ∀ i (h : i < l.length), (l.get ⟨i, h⟩).zIndex = i

theorem reindexZ_zOk (l : List Sticker) : zOk (reindexZ l) := by
  intro i h
  have hlen : (reindexZ l).length = l.length := by
    simp [reindexZ]
  have hi : i < l.length := hlen ▸ h
  have := List.get_mapIdx l (fun i s => { s with zIndex := i }) i hi
  simp only [reindexZ]
  rw [this]

theorem deleteStickerById_zOk (idToRemove : String) (prev : List Sticker) :
    zOk (deleteStickerById idToRemove prev) :=
  reindexZ_zOk _

theorem bringForward_zOk (idx : ℕ) (prev : List Sticker) :
    zOk (bringForward idx prev) :=
  reindexZ_zOk _

theorem sendBackward_zOk (idx : ℕ) (prev : List Sticker) :
    zOk (sendBackward idx prev) :=
  reindexZ_zOk _

/-- A sequential add (the captured `stickers.length` equals the true current
length) preserves the invariant. -/
theorem addSticker_fresh_zOk (id : String) (dataUrl : ImgSrc) (imgW imgH : ℚ)
    (prev : List Sticker) (hprev : zOk prev) :
    zOk (addSticker (mkUploadedSticker id dataUrl imgW imgH prev.length) prev) := by
  intro i h
  rw [List.get_eq_getElem]
  show (prev ++ [mkUploadedSticker id dataUrl imgW imgH prev.length])[i].zIndex = i
  rcases Nat.lt_or_ge i prev.length with hi | hi
  · rw [List.getElem_append_left hi]
    have := hprev i hi
    rwa [List.get_eq_getElem] at this
  · have hlen : i < prev.length + 1 := by
      have h2 := h
      simp only [addSticker, List.length_append, List.length_singleton] at h2
      exact h2
    have hieq : i = prev.length := by omega
    rw [List.getElem_concat_length prev _ i hieq]
    exact hieq.symm

/-- Two adds whose `onload` closures both captured the same stale
`stickers.length = 0` (e.g. a two-file upload that fires both reader
callbacks before React re-renders `addStickerFromDataUrl`). -/
def rapidAddResult : List Sticker :=
  addSticker (mkUploadedSticker "b" (ImgSrc.url "uploadB") 1 1 0)
    (addSticker (mkUploadedSticker "a" (ImgSrc.url "uploadA") 2 1 0) [])

/-- C1: the claimed invariant — after every structural mutation, including
rapid consecutive adds from a multi-file upload, each sticker's zIndex
equals its array index — FAILS on the code: `addStickerFromDataUrl` reads
`stickers.length` from the render closure but appends via the functional
updater, so two adds batched before a re-render both get `zIndex = 0`,
leaving the second sticker (array index 1) with `zIndex 0`. -/
theorem addSticker_rapid_zIndex_violation :
    rapidAddResult.length = 2 ∧
    (rapidAddResult.get? 1).map Sticker.zIndex = some 0 ∧
    ¬ zOk rapidAddResult := by
  refine ⟨rfl, rfl, fun hz => ?_⟩
  have h1 : (1 : ℕ) < rapidAddResult.length := by
    show 1 < 2
    omega
  have := hz 1 h1
  have hzero : (rapidAddResult.get ⟨1, h1⟩).zIndex = 0 := rfl
  rw [hzero] at this
  exact absurd this (by omega)

/-- The `StickerForScene` record passed from the editor to the 3D scene
(part_009 lines 15-22). -/
structure StickerForScene where
  src : ImgSrc
  uvX : ℚ
  uvY : ℚ
  scale : ℚ
  rotation : Option ℚ
  aspectRatio : Option ℚ

/-- Rotate a point by the angle whose (cos, sin) pair is `cs`. -/
def rotatePt (cs : ℚ × ℚ) (p : ℚ × ℚ) : ℚ × ℚ :=
  (cs.1 * p.1 - cs.2 * p.2, cs.2 * p.1 + cs.1 * p.2)

/-- The pixel a rotated `ctx.drawImage(img, -w/2, -h/2, w, h)` (after
`translate(cx, cy); rotate(angle)`) contributes at destination point `p`:
invert the transform, check the half-open destination rectangle, and sample
the image at the corresponding normalized source coordinates.  `none` means
the draw leaves `p` untouched (outside the rectangle, or a transparent
source sample). -/
def rotatedSample (img : Img) (cx cy : ℚ) (cs : ℚ × ℚ) (w h : ℚ)
    (p : ℚ × ℚ) : Option String :=
  let q := rotatePt (cs.1, -cs.2) (p.1 - cx, p.2 - cy)
  if -(w / 2) ≤ q.1 ∧ q.1 < w / 2 ∧ -(h / 2) ≤ q.2 ∧ q.2 < h / 2 then
    img ((q.1 + w / 2) / w, (q.2 + h / 2) / h)
  else none

/-- The save/translate/rotate/drawImage/restore sequence of part_009
lines 304-311, as a canvas-to-canvas function. -/
def drawImageRotated (c : Canvas) (img : Img) (cx cy : ℚ) (cs : ℚ × ℚ)
    (w h : ℚ) : Canvas :=
  fun p =>
    match rotatedSample img cx cy cs w h p with
    | some col => some col
    | none => c p

/-- The draw geometry computed in `drawSticker`'s `img.onload`. -/
structure DrawGeom where
  cx : ℚ
  cy : ℚ
  cs : ℚ × ℚ
  w : ℚ
  h : ℚ

/-- Geometry of one sticker draw (part_009 lines 290-308): pixel size from
`scale * max(texWidth, texHeight)` corrected by the aspect ratio (the longer
edge gets the scaled size), center from `(uvX·W, (1-uvY)·H)`, rotation about
the sticker's own center.  `trig` abstracts the degree → (cos, sin)
conversion performed by `ctx.rotate`.  The `(img.width / img.height) || 1`
aspect fallback is modelled with the ℚ convention `x / 0 = 0`, which agrees
with JS except when `img.height = 0 ≠ img.width` (JS would produce
Infinity, which no garment image has). -/
def stickerGeom (trig : ℚ → ℚ × ℚ) (texWidth texHeight : ℚ)
    (sticker : StickerForScene) (img : DecodedImg) : DrawGeom :=
  let baseSize := sticker.scale * max texWidth texHeight
  let aspect : ℚ :=
    match sticker.aspectRatio with
    | some a => a
    | none => if img.width / img.height = 0 then 1 else img.width / img.height
  let stickerW := if aspect > 1 then baseSize else baseSize * aspect
  let stickerH := if aspect > 1 then baseSize / aspect else baseSize
  let x := sticker.uvX * texWidth - stickerW / 2
  let y := (1 - sticker.uvY) * texHeight - stickerH / 2
  let rot : ℚ := match sticker.rotation with | some r => r | none => 0
  { cx := x + stickerW / 2
    cy := y + stickerH / 2
    cs := trig rot
    w := stickerW
    h := stickerH }

/-- `drawSticker`'s successful (`img.onload`) branch (part_009 289-313). -/
def drawStickerOnCanvas (trig : ℚ → ℚ × ℚ) (texWidth texHeight : ℚ)
    (c : Canvas) (sticker : StickerForScene) (img : DecodedImg) : Canvas :=
  let g := stickerGeom trig texWidth texHeight sticker img
  drawImageRotated c img.sample g.cx g.cy g.cs g.w g.h

/-- The pixel contribution a single sticker makes at point `p` during a
bake: `none` if its image fails to decode, if `p` is outside its rotated
rectangle, or if the source sample there is transparent. -/
def stickerPaint (trig : ℚ → ℚ × ℚ) (texWidth texHeight : ℚ)
    (decode : ImgSrc → Option DecodedImg) (sticker : StickerForScene)
    (p : ℚ × ℚ) : Option String :=
  match decode sticker.src with
  | none => none
  | some img =>
    let g := stickerGeom trig texWidth texHeight sticker img
    rotatedSample img.sample g.cx g.cy g.cs g.w g.h p

/-- The sequential bake loop (part_009 lines 322-325): for each sticker in
array order, await its decode, then draw it onto the shared canvas before
starting the next.  A failed decode (`img.onerror`) logs a warning and
resolves without touching the canvas. -/
def bakeStickers (trig : ℚ → ℚ × ℚ) (texWidth texHeight : ℚ)
    (decode : ImgSrc → Option DecodedImg) (c : Canvas) :
    List StickerForScene → Canvas
  | [] => c
  | sticker :: rest =>
    match decode sticker.src with
    | some img =>
      bakeStickers trig texWidth texHeight decode
        (drawStickerOnCanvas trig texWidth texHeight c sticker img) rest
    | none => bakeStickers trig texWidth texHeight decode c rest

/-- A three.js texture, reduced to the fields the bake touches. -/
structure TextureT where
  image : Option DecodedImg
  flipY : Bool

/-- A mesh material, reduced to the fields the bake and reset touch. -/
structure MaterialT where
  map : Option TextureT
  normalMap : Option TextureT
  roughnessMap : Option TextureT
  metalnessMap : Option TextureT
  aoMap : Option TextureT
  emissiveMap : Option TextureT
  color : String

/-- The per-mesh PBR snapshot stored in `originalMaps` at model-load time
(part_009 lines 215-223). -/
structure OriginalMaps where
  map : Option TextureT
  normalMap : Option TextureT
  roughnessMap : Option TextureT
  metalnessMap : Option TextureT
  aoMap : Option TextureT
  emissiveMap : Option TextureT
  color : String

/-- Capture of the snapshot from a mesh's material at load time. -/
def captureOriginalMaps (mat : MaterialT) : OriginalMaps :=
  { map := mat.map
    normalMap := mat.normalMap
    roughnessMap := mat.roughnessMap
    metalnessMap := mat.metalnessMap
    aoMap := mat.aoMap
    emissiveMap := mat.emissiveMap
    color := mat.color }

/-- Canvas resolution (part_009 lines 254-256): the original color-map
image's dimensions when present and nonzero, else the 2048 default
(`texHeight` falls back to `texWidth`). -/
def texSize (baseImage : Option DecodedImg) : ℚ × ℚ :=
  let texWidth : ℚ :=
    match baseImage with
    | some img => if img.width ≠ 0 then img.width else 2048
    | none => 2048
  let texHeight : ℚ :=
    match baseImage with
    | some img => if img.height ≠ 0 then img.height else texWidth
    | none => texWidth
  (texWidth, texHeight)

/-- A freshly created canvas: fully transparent. -/
def clearCanvas : Canvas := fun _ => none

/-- `ctx.fillRect` over a half-open rectangle. -/
def fillRect (c : Canvas) (color : String) (x y w h : ℚ) : Canvas :=
  fun p =>
    if x ≤ p.1 ∧ p.1 < x + w ∧ y ≤ p.2 ∧ p.2 < y + h then some color
    else c p

/-- Unrotated `ctx.drawImage(img, dx, dy, dw, dh)`: scale the whole image
into the destination rectangle. -/
def drawImageScaled (c : Canvas) (img : Img) (dx dy dw dh : ℚ) : Canvas :=
  fun p =>
    if dx ≤ p.1 ∧ p.1 < dx + dw ∧ dy ≤ p.2 ∧ p.2 < dy + dh then
      match img ((p.1 - dx) / dw, (p.2 - dy) / dh) with
      | some col => some col
      | none => c p
    else c p

/-- `modelColor && modelColor !== 'reset' && modelColor !== 'original'`
(part_009 line 265): the Color Mode is a user-picked custom color. -/
def isCustomColor (modelColor : String) : Bool :=
  modelColor ≠ "" && modelColor ≠ "reset" && modelColor ≠ "original"

/-- The background fill of the bake (part_009 lines 264-282): flat custom
color in custom mode; otherwise the original color-map image scaled to the
canvas, or a flat fill of the mesh's stored base color when no map image
exists.  (The `catch` fallback around `drawImage` is unreachable here:
a decoded `DecodedImg` always draws.) -/
def bakeBackground (modelColor : String) (stored : OriginalMaps)
    (texWidth texHeight : ℚ) : Canvas :=
  if isCustomColor modelColor then
    fillRect clearCanvas modelColor 0 0 texWidth texHeight
  else
    match stored.map.bind (fun t => t.image) with
    | some img => drawImageScaled clearCanvas img.sample 0 0 texWidth texHeight
    | none => fillRect clearCanvas stored.color 0 0 texWidth texHeight

/-- One mesh's bake canvas (part_009 lines 254-325): resolution from the
stored color map, background from the color mode, stickers composited
sequentially on top.  Returns the composite and its dimensions. -/
def meshBakeCanvas (trig : ℚ → ℚ × ℚ) (modelColor : String)
    (stored : OriginalMaps) (decode : ImgSrc → Option DecodedImg)
    (stickers : List StickerForScene) : Canvas × ℚ × ℚ :=
  let baseImage := stored.map.bind (fun t => t.image)
  let wh := texSize baseImage
  let bg := bakeBackground modelColor stored wh.1 wh.2
  (bakeStickers trig wh.1 wh.2 decode bg stickers, wh.1, wh.2)

/-- `new THREE.CanvasTexture(canvas)` followed by `composite.flipY = false`
(part_009 lines 327-334). -/
def mkCompositeTexture (canvas : Canvas) (texWidth texHeight : ℚ) : TextureT :=
  { image := some { sample := canvas, width := texWidth, height := texHeight }
    flipY := false }

/-- The material assignment at the end of a bake (part_009 lines 336-346):
the composite becomes the color map, the five non-color maps are reassigned
from the snapshot, and the material color is forced to white. -/
def applyBakeToMaterial (mat : MaterialT) (stored : OriginalMaps)
    (composite : TextureT) : MaterialT :=
  { map := some composite
    normalMap := stored.normalMap
    roughnessMap := stored.roughnessMap
    metalnessMap := stored.metalnessMap
    aoMap := stored.aoMap
    emissiveMap := stored.emissiveMap
    color := "#ffffff" }

/-- One mesh's full bake: composite canvas wrapped as a texture and
assigned (part_009 lines 246-348). -/
def meshBakeMaterial (trig : ℚ → ℚ × ℚ) (modelColor : String)
    (mat : MaterialT) (stored : OriginalMaps)
    (decode : ImgSrc → Option DecodedImg)
    (stickers : List StickerForScene) : MaterialT :=
  let r := meshBakeCanvas trig modelColor stored decode stickers
  applyBakeToMaterial mat stored (mkCompositeTexture r.1 r.2.1 r.2.2)

/-- The explicit reset path (part_009 lines 352-368, `modelColor === 'reset'`):
every map and the base color are restored verbatim from the snapshot. -/
def resetMaterial (stored : OriginalMaps) : MaterialT :=
  { map := stored.map
    normalMap := stored.normalMap
    roughnessMap := stored.roughnessMap
    metalnessMap := stored.metalnessMap
    aoMap := stored.aoMap
    emissiveMap := stored.emissiveMap
    color := stored.color }

/-- One step of the bake loop, pointwise: the canvas after processing one
sticker shows that sticker's paint contribution where it has one, and the
previous canvas elsewhere. -/
theorem bake_step_pixel (trig : ℚ → ℚ × ℚ) (texWidth texHeight : ℚ)
    (decode : ImgSrc → Option DecodedImg) (c : Canvas)
    (sticker : StickerForScene) (p : ℚ × ℚ) :
    (match decode sticker.src with
     | some img => drawStickerOnCanvas trig texWidth texHeight c sticker img
     | none => c) p =
    (match stickerPaint trig texWidth texHeight decode sticker p with
     | some col => some col
     | none => c p) := by
  cases hd : decode sticker.src with
  | none => simp [stickerPaint, hd]
  | some img =>
    simp only [stickerPaint, hd, drawStickerOnCanvas, drawImageRotated]

/-- If every sticker of the list is transparent at `p` (failed decode,
outside its rectangle, or transparent sample), the bake leaves `p` as the
background produced it. -/
theorem bakeStickers_transparent_at (trig : ℚ → ℚ × ℚ) (texWidth texHeight : ℚ)
    (decode : ImgSrc → Option DecodedImg) (p : ℚ × ℚ) :
    ∀ (l : List StickerForScene) (c : Canvas),
      (∀ s ∈ l, stickerPaint trig texWidth texHeight decode s p = none) →
      bakeStickers trig texWidth texHeight decode c l p = c p := by
  intro l
  induction l with
  | nil => intro c _; rfl
  | cons hd tl ih =>
    intro c hall
    have hhd := hall hd (List.mem_cons_self hd tl)
    have htl : ∀ s ∈ tl, stickerPaint trig texWidth texHeight decode s p = none :=
      fun s hs => hall s (List.mem_cons_of_mem hd hs)
    cases hdec : decode hd.src with
    | none =>
      simp only [bakeStickers, hdec]
      exact ih c htl
    | some img =>
      simp only [bakeStickers, hdec]
      rw [ih _ htl]
      have hsamp : rotatedSample img.sample
          (stickerGeom trig texWidth texHeight hd img).cx
          (stickerGeom trig texWidth texHeight hd img).cy
          (stickerGeom trig texWidth texHeight hd img).cs
          (stickerGeom trig texWidth texHeight hd img).w
          (stickerGeom trig texWidth texHeight hd img).h p = none := by
        simpa [stickerPaint, hdec] using hhd
      simp [drawStickerOnCanvas, drawImageRotated, hsamp]

/-- Auxiliary form of the paint-order property: the last sticker of the
list that contributes paint at `p` determines the composite's pixel there. -/
theorem bakeStickers_last_paint (trig : ℚ → ℚ × ℚ) (texWidth texHeight : ℚ)
    (decode : ImgSrc → Option DecodedImg) (p : ℚ × ℚ) (colB : String) :
    ∀ (l : List StickerForScene) (c : Canvas) (j : ℕ) (hj : j < l.length),
      stickerPaint trig texWidth texHeight decode (l.get ⟨j, hj⟩) p = some colB →
      (∀ k (hk : k < l.length), j < k →
        stickerPaint trig texWidth texHeight decode (l.get ⟨k, hk⟩) p = none) →
      bakeStickers trig texWidth texHeight decode c l p = some colB := by
  intro l
  induction l with
  | nil => intro c j hj; exact absurd hj (by simp)
  | cons hd tl ih =>
    intro c j hj hB habove
    cases j with
    | zero =>
      have hhd : stickerPaint trig texWidth texHeight decode hd p = some colB := hB
      have htl : ∀ s ∈ tl, stickerPaint trig texWidth texHeight decode s p = none := by
        intro s hs
        obtain ⟨k, hks⟩ := List.mem_iff_get.mp hs
        have hklt := k.isLt
        have hk1 : (k : ℕ) + 1 < (hd :: tl).length := by
          simp only [List.length_cons]
          omega
        have := habove ((k : ℕ) + 1) hk1 (Nat.succ_pos _)
        rw [show (hd :: tl).get ⟨(k : ℕ) + 1, hk1⟩ = tl.get k from rfl] at this
        rwa [hks] at this
      cases hdec : decode hd.src with
      | none =>
        exact absurd hhd (by simp [stickerPaint, hdec])
      | some img =>
        simp only [bakeStickers, hdec]
        rw [bakeStickers_transparent_at trig texWidth texHeight decode p tl _ htl]
        have hsamp := hhd
        simp only [stickerPaint, hdec] at hsamp
        simp [drawStickerOnCanvas, drawImageRotated, hsamp]
    | succ j0 =>
      have hj0 : j0 < tl.length := Nat.lt_of_succ_lt_succ hj
      have hB0 : stickerPaint trig texWidth texHeight decode (tl.get ⟨j0, hj0⟩) p = some colB := hB
      have habove0 : ∀ k (hk : k < tl.length), j0 < k →
          stickerPaint trig texWidth texHeight decode (tl.get ⟨k, hk⟩) p = none := by
        intro k hk hgt
        have hk1 : k + 1 < (hd :: tl).length := by
          simp only [List.length_cons]
          omega
        have := habove (k + 1) hk1 (Nat.succ_lt_succ hgt)
        rwa [show (hd :: tl).get ⟨k + 1, hk1⟩ = tl.get ⟨k, hk⟩ from rfl] at this
      cases hdec : decode hd.src with
      | none =>
        simp only [bakeStickers, hdec]
        exact ih c j0 hj0 hB0 habove0
      | some img =>
        simp only [bakeStickers, hdec]
        exact ih _ j0 hj0 hB0 habove0

/-- C2: the bake draws the sticker list strictly sequentially in ascending
array (zIndex) order, so wherever a lower-index sticker `i` and a
higher-index sticker `j` both cover a pixel `p` (and no later sticker
covers it), the composite shows the higher-index sticker's pixel — the
awaited sequential loop makes this independent of decode completion
order, which the model reflects by depending only on the list order. -/
theorem bake_paint_order (trig : ℚ → ℚ × ℚ) (texWidth texHeight : ℚ)
    (decode : ImgSrc → Option DecodedImg) (c : Canvas)
    (l : List StickerForScene) (p : ℚ × ℚ) (i j : ℕ) (hij : i < j)
    (hj : j < l.length) (colA colB : String)
    (hA : stickerPaint trig texWidth texHeight decode
      (l.get ⟨i, Nat.lt_trans hij hj⟩) p = some colA)
    (hB : stickerPaint trig texWidth texHeight decode (l.get ⟨j, hj⟩) p = some colB)
    (habove : ∀ k (hk : k < l.length), j < k →
      stickerPaint trig texWidth texHeight decode (l.get ⟨k, hk⟩) p = none) :
    bakeStickers trig texWidth texHeight decode c l p = some colB :=
  bakeStickers_last_paint trig texWidth texHeight decode p colB l c j hj hB habove

/-- Identity-rotation trig table: degree 0 ↦ (cos, sin) = (1, 0). -/
def trigSample : ℚ → ℚ × ℚ := fun _ => (1, 0)

/-- A decode environment with two solid-color test images. -/
def decodeSample : ImgSrc → Option DecodedImg := fun src =>
  match src with
  | ImgSrc.url s =>
    if s = "A" then some { sample := fun _ => some "#ff0000", width := 40, height := 40 }
    else if s = "B" then some { sample := fun _ => some "#00ff00", width := 40, height := 40 }
    else none
  | ImgSrc.canvasExport _ _ _ => none

/-- Lower sticker: solid red, 30 px square centered at (50, 50). -/
def stickerA : StickerForScene :=
  { src := ImgSrc.url "A", uvX := 1 / 2, uvY := 1 / 2, scale := 3 / 10,
    rotation := some 0, aspectRatio := some 1 }

/-- Higher sticker: solid green, 20 px square centered at (50, 50). -/
def stickerB : StickerForScene :=
  { src := ImgSrc.url "B", uvX := 1 / 2, uvY := 1 / 2, scale := 1 / 5,
    rotation := some 0, aspectRatio := some 1 }

theorem bake_paint_order_witness :
    stickerPaint trigSample 100 100 decodeSample stickerA (50, 50) = some "#ff0000" ∧
    stickerPaint trigSample 100 100 decodeSample stickerB (50, 50) = some "#00ff00" ∧
    bakeStickers trigSample 100 100 decodeSample clearCanvas
      [stickerA, stickerB] (50, 50) = some "#00ff00" := by
  have hA : stickerPaint trigSample 100 100 decodeSample stickerA (50, 50) =
      some "#ff0000" := by
    simp only [stickerPaint, decodeSample, stickerA, stickerGeom, rotatedSample,
      rotatePt, trigSample]
    norm_num
  have hB : stickerPaint trigSample 100 100 decodeSample stickerB (50, 50) =
      some "#00ff00" := by
    simp only [stickerPaint, decodeSample, stickerB, stickerGeom, rotatedSample,
      rotatePt, trigSample]
    norm_num
    rfl
  refine ⟨hA, hB, ?_⟩
  exact bake_paint_order trigSample 100 100 decodeSample clearCanvas
    [stickerA, stickerB] (50, 50) 0 1 (by omega) (by simp) "#ff0000" "#00ff00"
    hA hB
    (fun k hk hgt => absurd hgt (by simp at hk; omega))

/-- C3: a sticker whose image fails to decode is skipped and the bake
continues: the composite equals the bake of the same stack with that
sticker removed, so one bad image is never fatal to the bake. -/
theorem bake_skip_failed (trig : ℚ → ℚ × ℚ) (texWidth texHeight : ℚ)
    (decode : ImgSrc → Option DecodedImg) (c : Canvas)
    (pre post : List StickerForScene) (s : StickerForScene)
    (hfail : decode s.src = none) :
    bakeStickers trig texWidth texHeight decode c (pre ++ s :: post) =
    bakeStickers trig texWidth texHeight decode c (pre ++ post) := by
  induction pre generalizing c with
  | nil => simp [bakeStickers, hfail]
  | cons hd tl ih =>
    cases hdec : decode hd.src <;> simp only [List.cons_append, bakeStickers, hdec] <;>
      exact ih _

/-- A decode environment in which every image fails. -/
def decodeNone : ImgSrc → Option DecodedImg := fun _ => none

/-- A sticker whose image will fail to decode. -/
def stickerBroken : StickerForScene :=
  { src := ImgSrc.url "broken", uvX := 1 / 2, uvY := 1 / 2, scale := 3 / 20,
    rotation := some 0, aspectRatio := some 1 }

theorem bake_skip_failed_witness :
    decodeNone stickerBroken.src = none ∧
    bakeStickers trigSample 2048 2048 decodeNone clearCanvas [stickerBroken] =
      bakeStickers trigSample 2048 2048 decodeNone clearCanvas [] :=
  ⟨rfl, bake_skip_failed trigSample 2048 2048 decodeNone clearCanvas [] []
    stickerBroken rfl⟩

/-- C4: the bake canvas takes the original color-map image's dimensions when
that map exists (2048² otherwise); the background is a flat fill of the
custom color in custom mode, the original color-map image scaled to the
canvas in original mode, or a flat fill of the stored base color when no
map image exists — and baking an empty sticker stack with custom color
"#ff0000" yields a composite that is red at every canvas pixel. -/
theorem bake_resolution_and_background :
    (texSize none = (2048, 2048)) ∧
    (∀ img : DecodedImg, img.width ≠ 0 → img.height ≠ 0 →
      texSize (some img) = (img.width, img.height)) ∧
    (∀ (modelColor : String) (stored : OriginalMaps) (texWidth texHeight : ℚ)
      (p : ℚ × ℚ),
      isCustomColor modelColor = true →
      0 ≤ p.1 → p.1 < texWidth → 0 ≤ p.2 → p.2 < texHeight →
      bakeBackground modelColor stored texWidth texHeight p = some modelColor) ∧
    (∀ (modelColor : String) (stored : OriginalMaps) (img : DecodedImg)
      (texWidth texHeight : ℚ),
      isCustomColor modelColor = false →
      stored.map.bind (fun t => t.image) = some img →
      bakeBackground modelColor stored texWidth texHeight =
        drawImageScaled clearCanvas img.sample 0 0 texWidth texHeight) ∧
    (∀ (modelColor : String) (stored : OriginalMaps) (texWidth texHeight : ℚ)
      (p : ℚ × ℚ),
      isCustomColor modelColor = false →
      stored.map.bind (fun t => t.image) = none →
      0 ≤ p.1 → p.1 < texWidth → 0 ≤ p.2 → p.2 < texHeight →
      bakeBackground modelColor stored texWidth texHeight p = some stored.color) ∧
    (∀ (trig : ℚ → ℚ × ℚ) (stored : OriginalMaps)
      (decode : ImgSrc → Option DecodedImg) (p : ℚ × ℚ),
      0 ≤ p.1 → p.1 < (meshBakeCanvas trig "#ff0000" stored decode []).2.1 →
      0 ≤ p.2 → p.2 < (meshBakeCanvas trig "#ff0000" stored decode []).2.2 →
      (meshBakeCanvas trig "#ff0000" stored decode []).1 p = some "#ff0000") := by
  refine ⟨rfl, ?_, ?_, ?_, ?_, ?_⟩
  · intro img hw hh
    simp [texSize, hw, hh]
  · intro modelColor stored texWidth texHeight p hc hx0 hxw hy0 hyh
    simp only [bakeBackground, hc, if_true]
    simp only [fillRect]
    rw [if_pos]
    exact ⟨hx0, by linarith, hy0, by linarith⟩
  · intro modelColor stored img texWidth texHeight hc himg
    simp [bakeBackground, hc, himg]
  · intro modelColor stored texWidth texHeight p hc hnone hx0 hxw hy0 hyh
    simp only [bakeBackground, hc, Bool.false_eq_true, if_false, hnone]
    simp only [fillRect]
    rw [if_pos]
    exact ⟨hx0, by linarith, hy0, by linarith⟩
  · intro trig stored decode p hx0 hxw hy0 hyh
    have hc : isCustomColor "#ff0000" = true := rfl
    have hxw2 : p.1 < (texSize (stored.map.bind fun t => t.image)).1 := hxw
    have hyh2 : p.2 < (texSize (stored.map.bind fun t => t.image)).2 := hyh
    show bakeBackground "#ff0000" stored
      (texSize (stored.map.bind fun t => t.image)).1
      (texSize (stored.map.bind fun t => t.image)).2 p = some "#ff0000"
    simp only [bakeBackground, hc, if_true]
    simp only [fillRect]
    rw [if_pos]
    exact ⟨hx0, by linarith, hy0, by linarith⟩

/-- A snapshot with no color-map image and a stored blue-ish base color. -/
def storedNoMap : OriginalMaps :=
  { map := none, normalMap := none, roughnessMap := none, metalnessMap := none,
    aoMap := none, emissiveMap := none, color := "#2244aa" }

/-- A 1024×512 original color-map image. -/
def baseImgSample : DecodedImg :=
  { sample := fun _ => some "#808080", width := 1024, height := 512 }

/-- A snapshot whose color map carries `baseImgSample`. -/
def storedWithMap : OriginalMaps :=
  { map := some { image := some baseImgSample, flipY := true },
    normalMap := none, roughnessMap := none, metalnessMap := none,
    aoMap := none, emissiveMap := none, color := "#123456" }

theorem bake_resolution_and_background_witness :
    texSize (some baseImgSample) = (1024, 512) ∧
    bakeBackground "#ff0000" storedNoMap 2048 2048 (100, 200) = some "#ff0000" ∧
    bakeBackground "original" storedWithMap 1024 512 =
      drawImageScaled clearCanvas baseImgSample.sample 0 0 1024 512 ∧
    bakeBackground "original" storedNoMap 2048 2048 (100, 200) = some "#2244aa" ∧
    (meshBakeCanvas trigSample "#ff0000" storedNoMap decodeNone []).1 (100, 200) =
      some "#ff0000" := by
  refine ⟨?_, ?_, ?_, ?_, ?_⟩
  · exact bake_resolution_and_background.2.1 baseImgSample
      (by norm_num [baseImgSample]) (by norm_num [baseImgSample])
  · exact bake_resolution_and_background.2.2.1 "#ff0000" storedNoMap 2048 2048
      (100, 200) rfl (by norm_num) (by norm_num) (by norm_num) (by norm_num)
  · exact bake_resolution_and_background.2.2.2.1 "original" storedWithMap
      baseImgSample 1024 512 rfl rfl
  · exact bake_resolution_and_background.2.2.2.2.1 "original" storedNoMap 2048 2048
      (100, 200) rfl rfl (by norm_num) (by norm_num) (by norm_num) (by norm_num)
  · exact bake_resolution_and_background.2.2.2.2.2 trigSample storedNoMap decodeNone
      (100, 200) (by norm_num) (by show (100 : ℚ) < 2048; norm_num)
      (by norm_num) (by show (200 : ℚ) < 2048; norm_num)

/-- C5: the bake replaces only the material's color map — the finished
canvas is wrapped as a texture with vertical flip disabled and assigned as
the map, while the normal, roughness, metalness, ambient-occlusion and
emissive maps are reassigned from the snapshot captured at model-load time,
unchanged by the bake. -/
theorem bake_replaces_only_color_map (trig : ℚ → ℚ × ℚ) (modelColor : String)
    (mat mat0 : MaterialT) (decode : ImgSrc → Option DecodedImg)
    (stickers : List StickerForScene) :
    (meshBakeMaterial trig modelColor mat (captureOriginalMaps mat0) decode
        stickers).map =
      some (mkCompositeTexture
        (meshBakeCanvas trig modelColor (captureOriginalMaps mat0) decode stickers).1
        (meshBakeCanvas trig modelColor (captureOriginalMaps mat0) decode stickers).2.1
        (meshBakeCanvas trig modelColor (captureOriginalMaps mat0) decode stickers).2.2) ∧
    (mkCompositeTexture
        (meshBakeCanvas trig modelColor (captureOriginalMaps mat0) decode stickers).1
        (meshBakeCanvas trig modelColor (captureOriginalMaps mat0) decode stickers).2.1
        (meshBakeCanvas trig modelColor (captureOriginalMaps mat0) decode
          stickers).2.2).flipY = false ∧
    (meshBakeMaterial trig modelColor mat (captureOriginalMaps mat0) decode
        stickers).normalMap = mat0.normalMap ∧
    (meshBakeMaterial trig modelColor mat (captureOriginalMaps mat0) decode
        stickers).roughnessMap = mat0.roughnessMap ∧
    (meshBakeMaterial trig modelColor mat (captureOriginalMaps mat0) decode
        stickers).metalnessMap = mat0.metalnessMap ∧
    (meshBakeMaterial trig modelColor mat (captureOriginalMaps mat0) decode
        stickers).aoMap = mat0.aoMap ∧
    (meshBakeMaterial trig modelColor mat (captureOriginalMaps mat0) decode
        stickers).emissiveMap = mat0.emissiveMap :=
  ⟨rfl, rfl, rfl, rfl, rfl, rfl, rfl⟩

/-- C10: every completed bake forces the material color to white "#ffffff"
regardless of the color mode (even in original mode the snapshot's stored
base color is not reapplied by the bake); the stored base color — together
with the stored maps — is restored only by the explicit reset path. -/
theorem bake_forces_white_reset_restores (trig : ℚ → ℚ × ℚ)
    (modelColor : String) (mat : MaterialT) (stored : OriginalMaps)
    (decode : ImgSrc → Option DecodedImg) (stickers : List StickerForScene) :
    (meshBakeMaterial trig modelColor mat stored decode stickers).color =
      "#ffffff" ∧
    (resetMaterial stored).color = stored.color ∧
    (resetMaterial stored).map = stored.map ∧
    (resetMaterial stored).normalMap = stored.normalMap ∧
    (resetMaterial stored).roughnessMap = stored.roughnessMap ∧
    (resetMaterial stored).metalnessMap = stored.metalnessMap ∧
    (resetMaterial stored).aoMap = stored.aoMap ∧
    (resetMaterial stored).emissiveMap = stored.emissiveMap :=
  ⟨rfl, rfl, rfl, rfl, rfl, rfl, rfl, rfl⟩

/-- The dragging branch of the global `onMove` handler (part_004 lines
301-325): new center = old center pixel + pointer delta, clamped to the
frame rectangle, converted back to UV (`uvY` with the `1 - v` convention).
`dx, dy` are the pointer deltas since the last processed move event. -/
def onMoveDrag (s : Sticker) (dx dy rectW rectH : ℚ) : Sticker :=
  let centerX := s.uvX * rectW
  let centerY := (1 - s.uvY) * rectH
  let newCenterX := max 0 (min rectW (centerX + dx))
  let newCenterY := max 0 (min rectH (centerY + dy))
  { s with uvX := newCenterX / rectW, uvY := 1 - newCenterY / rectH }

/-- C6: a drag with pointer delta (dx, dy) moves the sticker's center pixel
(uvX·W, (1-uvY)·H) by exactly (dx, dy), clamped componentwise to
[0, W] × [0, H], before converting back to UV; in particular a (10, -5)
pixel drag inside a 360×360 frame whose result stays inside the frame
raises uvX by 10/360 and raises uvY by 5/360. -/
theorem drag_pixel_clamp_uv (s : Sticker) (dx dy rectW rectH : ℚ)
    (hW : 0 < rectW) (hH : 0 < rectH) :
    (onMoveDrag s dx dy rectW rectH).uvX * rectW =
      max 0 (min rectW (s.uvX * rectW + dx)) ∧
    (1 - (onMoveDrag s dx dy rectW rectH).uvY) * rectH =
      max 0 (min rectH ((1 - s.uvY) * rectH + dy)) ∧
    (dx = 10 → dy = -5 → rectW = 360 → rectH = 360 →
      0 ≤ s.uvX * 360 + 10 → s.uvX * 360 + 10 ≤ 360 →
      0 ≤ (1 - s.uvY) * 360 - 5 → (1 - s.uvY) * 360 - 5 ≤ 360 →
      (onMoveDrag s dx dy rectW rectH).uvX = s.uvX + 10 / 360 ∧
      (onMoveDrag s dx dy rectW rectH).uvY = s.uvY + 5 / 360) := by
  refine ⟨?_, ?_, ?_⟩
  · show max 0 (min rectW (s.uvX * rectW + dx)) / rectW * rectW = _
    rw [div_mul_cancel₀ _ (ne_of_gt hW)]
  · show (1 - (1 - max 0 (min rectH ((1 - s.uvY) * rectH + dy)) / rectH)) * rectH = _
    have : (1 : ℚ) - (1 - max 0 (min rectH ((1 - s.uvY) * rectH + dy)) / rectH) =
        max 0 (min rectH ((1 - s.uvY) * rectH + dy)) / rectH := by ring
    rw [this, div_mul_cancel₀ _ (ne_of_gt hH)]
  · intro hdx hdy hw360 hh360 hx0 hx1 hy0 hy1
    subst hdx hdy hw360 hh360
    have hminx : min (360 : ℚ) (s.uvX * 360 + 10) = s.uvX * 360 + 10 :=
      min_eq_right hx1
    have hmaxx : max (0 : ℚ) (s.uvX * 360 + 10) = s.uvX * 360 + 10 :=
      max_eq_right hx0
    have hminy : min (360 : ℚ) ((1 - s.uvY) * 360 + -5) = (1 - s.uvY) * 360 + -5 :=
      min_eq_right (by linarith)
    have hmaxy : max (0 : ℚ) ((1 - s.uvY) * 360 + -5) = (1 - s.uvY) * 360 + -5 :=
      max_eq_right (by linarith)
    constructor
    · show max 0 (min 360 (s.uvX * 360 + 10)) / 360 = s.uvX + 10 / 360
      rw [hminx, hmaxx]
      field_simp
    · show 1 - max 0 (min 360 ((1 - s.uvY) * 360 + -5)) / 360 = s.uvY + 5 / 360
      rw [hminy, hmaxy]
      field_simp
      ring

/-- A concrete sticker for witnesses: centered, unrotated, square. -/
def sampleSticker : Sticker :=
  { id := "s1", src := ImgSrc.url "up", originalSrc := some (ImgSrc.url "up"),
    uvX := 1 / 2, uvY := 1 / 2, scale := 3 / 20, width := 100, height := 100,
    rotation := 0, aspectRatio := 1, zIndex := 0,
    crop := some { x := 0, y := 0, width := 100, height := 100 },
    colorGrading := some DEFAULT_COLOR_GRADING }

theorem drag_pixel_clamp_uv_witness :
    (onMoveDrag sampleSticker 10 (-5) 360 360).uvX = sampleSticker.uvX + 10 / 360 ∧
    (onMoveDrag sampleSticker 10 (-5) 360 360).uvY = sampleSticker.uvY + 5 / 360 :=
  (drag_pixel_clamp_uv sampleSticker 10 (-5) 360 360 (by norm_num) (by norm_num)).2.2
    rfl rfl rfl rfl
    (by show (0 : ℚ) ≤ 1 / 2 * 360 + 10; norm_num)
    (by show (1 : ℚ) / 2 * 360 + 10 ≤ 360; norm_num)
    (by show (0 : ℚ) ≤ (1 - 1 / 2) * 360 - 5; norm_num)
    (by show ((1 : ℚ) - 1 / 2) * 360 - 5 ≤ 360; norm_num)

/-- `rotateSelectedBy` (part_004 lines 434-437): `(s.rotation + deg) % 360`
with the JS remainder. -/
def rotateSelectedBy (s : Sticker) (deg : ℚ) : Sticker :=
  { s with rotation := jsRem (s.rotation + deg) 360 }

/-- `rotateSticker(direction)` (part_004 lines 629-635): the ∓15° buttons. -/
def rotateSticker (s : Sticker) (left : Bool) : Sticker :=
  rotateSelectedBy s (if left then -15 else 15)

/-- The rotating branch of `onMove` (part_004 lines 347-359): `angleDeg` is
the current pointer angle about the sticker center (atan2 converted to
degrees), `pointerAngle` the angle captured at grab, `startAngle` the
rotation captured at grab; the new rotation is their JS-remainder
combination. -/
def onMoveRotate (s : Sticker) (startAngle pointerAngle angleDeg : ℚ) : Sticker :=
  let delta := angleDeg - pointerAngle
  { s with rotation := jsRem (startAngle + delta) 360 }

/-- C7 counterexample: pressing the -15° rotate button on a sticker with
rotation 0 stores rotation -15 (the JS `%` keeps the dividend's sign), so
the stored rotation does NOT always lie in [0, 360). -/
theorem rotate_range_counterexample :
    (rotateSticker sampleSticker true).rotation = -15 ∧
    ¬ (0 ≤ (rotateSticker sampleSticker true).rotation) := by
  have h : (rotateSticker sampleSticker true).rotation = -15 := by
    show jsRem (sampleSticker.rotation + -15) 360 = -15
    show jsRem ((0 : ℚ) + -15) 360 = -15
    rw [jsRem, ratTrunc]
    norm_num
  exact ⟨h, by rw [h]; norm_num⟩

/-- Bounds of the JS remainder by 360: the result lies in (-360, 360), and
agrees with the mathematical mod (hence lies in [0, 360)) exactly when the
dividend is nonnegative. -/
theorem jsRem_360_bounds (a : ℚ) : -360 < jsRem a 360 ∧ jsRem a 360 < 360 := by
  have hfr0 : (0 : ℚ) ≤ Int.fract (a / 360) := Int.fract_nonneg _
  have hfr1 : Int.fract (a / 360) < 1 := Int.fract_lt_one _
  have hfr0n : (0 : ℚ) ≤ Int.fract (-(a / 360)) := Int.fract_nonneg _
  have hfr1n : Int.fract (-(a / 360)) < 1 := Int.fract_lt_one _
  rw [jsRem, ratTrunc]
  split_ifs with h
  · have heq : a - 360 * ((⌊a / 360⌋ : ℤ) : ℚ) = 360 * Int.fract (a / 360) := by
      rw [Int.fract]
      field_simp
    rw [heq]
    constructor <;> linarith
  · have heq : a - 360 * (((-⌊-(a / 360)⌋ : ℤ) : ℤ) : ℚ) =
        -(360 * Int.fract (-(a / 360))) := by
      rw [Int.fract]
      push_cast
      field_simp
      ring
    rw [heq]
    constructor <;> linarith

/-- C7 amended: every rotation interaction stores
`(rotation₀ + delta) % 360` with `%` the JS truncated remainder, whose
value lies in (-360, 360); it lies in [0, 360) and equals the mathematical
mod only when `rotation₀ + delta ≥ 0` (the claim's [0, 360) bound fails
for negative sums, see the counterexample). -/
theorem rotate_jsRem_spec :
    (∀ (s : Sticker) (deg : ℚ),
      (rotateSelectedBy s deg).rotation = jsRem (s.rotation + deg) 360) ∧
    (∀ (s : Sticker) (left : Bool),
      (rotateSticker s left).rotation =
        jsRem (s.rotation + if left then -15 else 15) 360) ∧
    (∀ (s : Sticker) (startAngle pointerAngle angleDeg : ℚ),
      (onMoveRotate s startAngle pointerAngle angleDeg).rotation =
        jsRem (startAngle + (angleDeg - pointerAngle)) 360) ∧
    (∀ a : ℚ, -360 < jsRem a 360 ∧ jsRem a 360 < 360) ∧
    (∀ a : ℚ, 0 ≤ a →
      jsRem a 360 = a - 360 * ((⌊a / 360⌋ : ℤ) : ℚ) ∧ 0 ≤ jsRem a 360) := by
  refine ⟨fun s deg => rfl, fun s left => rfl, fun s sa pa ad => rfl,
    jsRem_360_bounds, ?_⟩
  intro a ha
  have hq : (0 : ℚ) ≤ a / 360 := by positivity
  have heq2 : jsRem a 360 = a - 360 * ((⌊a / 360⌋ : ℤ) : ℚ) := by
    rw [jsRem, ratTrunc, if_pos hq]
  refine ⟨heq2, ?_⟩
  have hfr0 : (0 : ℚ) ≤ Int.fract (a / 360) := Int.fract_nonneg _
  have heq3 : a - 360 * ((⌊a / 360⌋ : ℤ) : ℚ) = 360 * Int.fract (a / 360) := by
    rw [Int.fract]
    field_simp
  rw [heq2, heq3]
  linarith

theorem rotate_jsRem_spec_witness :
    jsRem 370 360 = 370 - 360 * ((⌊(370 : ℚ) / 360⌋ : ℤ) : ℚ) ∧
    0 ≤ jsRem 370 360 :=
  rotate_jsRem_spec.2.2.2.2 370 (by norm_num)

/-- The state captured at resize grab (part_004 `resizeStateRef`, line 412):
grab point and the sticker's width/height at grab time. -/
structure ResizeState where
  id : String
  x : ℚ
  y : ℚ
  width : ℚ
  height : ℚ

/-- The resizing branch of `onMove` (part_004 lines 329-343) applied to the
sticker whose id matches: delta = max(dx, dy) (diagonal-handle semantics),
new width = max(24, round(startWidth + delta)), new height =
max(24, round(startHeight + delta / aspectRatio)), and scale =
newWidth / max(frameW, frameH) clamped to [0.05, 0.5]. -/
def onMoveResize (rs : ResizeState) (coordsX coordsY rectW rectH : ℚ)
    (s : Sticker) : Sticker :=
  let dx := coordsX - rs.x
  let dy := coordsY - rs.y
  let delta := max dx dy
  let newW := max 24 (jsRound (rs.width + delta))
  let newH := max 24 (jsRound (rs.height + delta / s.aspectRatio))
  let biggest := max rectW rectH
  let relative := min (1 / 2) (max (1 / 20) (newW / biggest))
  { s with width := newW, height := newH, scale := relative }

/-- A 2:1 sticker (100×50) for the resize counterexample. -/
def resizeSticker : Sticker :=
  { sampleSticker with aspectRatio := 2, width := 100, height := 50 }

/-- Resize grab at the origin with the sticker's 100×50 start size. -/
def resizeGrab : ResizeState :=
  { id := "s1", x := 0, y := 0, width := 100, height := 50 }

/-- C8 counterexample: dragging the resize handle by (-80, -80) on a 2:1
sticker of start size 100×50 clamps BOTH width and height to the 24 px
floor, so the new height (24) is NOT the new width divided by the aspect
ratio (24 / 2 = 12): the height is advanced and clamped independently, not
derived from the clamped width. -/
theorem resize_height_counterexample :
    (onMoveResize resizeGrab (-80) (-80) 360 360 resizeSticker).width = 24 ∧
    (onMoveResize resizeGrab (-80) (-80) 360 360 resizeSticker).height = 24 ∧
    (onMoveResize resizeGrab (-80) (-80) 360 360 resizeSticker).height ≠
      (onMoveResize resizeGrab (-80) (-80) 360 360 resizeSticker).width /
        resizeSticker.aspectRatio := by
  have hw : (onMoveResize resizeGrab (-80) (-80) 360 360 resizeSticker).width = 24 := by
    show max 24 (jsRound (resizeGrab.width + max ((-80 : ℚ) - resizeGrab.x)
      ((-80 : ℚ) - resizeGrab.y))) = 24
    norm_num [resizeGrab, jsRound]
  have hh : (onMoveResize resizeGrab (-80) (-80) 360 360 resizeSticker).height = 24 := by
    show max 24 (jsRound (resizeGrab.height + max ((-80 : ℚ) - resizeGrab.x)
      ((-80 : ℚ) - resizeGrab.y) / resizeSticker.aspectRatio)) = 24
    norm_num [resizeGrab, resizeSticker, sampleSticker, jsRound]
  refine ⟨hw, hh, ?_⟩
  rw [hw, hh]
  show (24 : ℚ) ≠ 24 / resizeSticker.aspectRatio
  norm_num [resizeSticker, sampleSticker]

/-- C8 amended: the resizing branch sets
width = max(24, round(startWidth + max(dx, dy))) (so width is never below
24 px) and scale = clamp(width / max(frameW, frameH), 0.05, 0.5) as
claimed, but height = max(24, round(startHeight + max(dx, dy) /
aspectRatio)) — advanced from the start height and clamped independently —
which equals width / aspectRatio only when neither rounding nor the 24 px
floors interfere (see the counterexample). -/
theorem resize_formulas (rs : ResizeState) (coordsX coordsY rectW rectH : ℚ)
    (s : Sticker) :
    (onMoveResize rs coordsX coordsY rectW rectH s).width =
      max 24 (jsRound (rs.width + max (coordsX - rs.x) (coordsY - rs.y))) ∧
    24 ≤ (onMoveResize rs coordsX coordsY rectW rectH s).width ∧
    (onMoveResize rs coordsX coordsY rectW rectH s).height =
      max 24 (jsRound (rs.height +
        max (coordsX - rs.x) (coordsY - rs.y) / s.aspectRatio)) ∧
    24 ≤ (onMoveResize rs coordsX coordsY rectW rectH s).height ∧
    (onMoveResize rs coordsX coordsY rectW rectH s).scale =
      min (1 / 2) (max (1 / 20)
        ((onMoveResize rs coordsX coordsY rectW rectH s).width /
          max rectW rectH)) ∧
    1 / 20 ≤ (onMoveResize rs coordsX coordsY rectW rectH s).scale ∧
    (onMoveResize rs coordsX coordsY rectW rectH s).scale ≤ 1 / 2 :=
  ⟨rfl, le_max_left _ _, rfl, le_max_left _ _, rfl,
    le_min (by norm_num) (le_max_left _ _), min_le_left _ _⟩

/-- The offscreen crop canvas of `commitCrop` (part_004 lines 550-555):
`canvas.width = cropW; canvas.height = cropH;
ctx.drawImage(img, cropX, cropY, cropW, cropH, 0, 0, cropW, cropH)` —
the source sub-rectangle, rasterized at source-pixel size at the origin. -/
def cropSubCanvas (img : Img) (imgW imgH cropX cropY cropW cropH : ℚ) : Canvas :=
  fun p =>
    if 0 ≤ p.1 ∧ p.1 < cropW ∧ 0 ≤ p.2 ∧ p.2 < cropH then
      img ((cropX + p.1) / imgW, (cropY + p.2) / imgH)
    else none

/-- `commitCrop`'s effect on the selected sticker (part_004 lines 535-569),
given a decode environment for the sticker's current source.  A missing or
full-default crop, or a failed image load, leaves the sticker unchanged.
Otherwise the percent crop is converted to source pixels from the image's
natural size, rasterized onto an offscreen canvas of that size and exported
as the new `src`; `aspectRatio` becomes `cropW / cropH` with the JS
`|| x.aspectRatio` fallback when that quotient is 0 (the JS Infinity case
`cropH = 0 ≠ cropW` has no rational counterpart and cannot arise from the
≥5 percent crop clamps); `crop` resets to the full-image default. -/
def commitCrop (s : Sticker) (decode : ImgSrc → Option DecodedImg) : Sticker :=
  match s.crop with
  | none => s
  | some crop =>
    if crop.x = 0 ∧ crop.y = 0 ∧ crop.width = 100 ∧ crop.height = 100 then s
    else
      match decode s.src with
      | none => s
      | some img =>
        let cropX := crop.x / 100 * img.width
        let cropY := crop.y / 100 * img.height
        let cropW := crop.width / 100 * img.width
        let cropH := crop.height / 100 * img.height
        let ratio := if cropW / cropH = 0 then s.aspectRatio else cropW / cropH
        { s with
          src := ImgSrc.canvasExport
            (cropSubCanvas img.sample img.width img.height cropX cropY cropW cropH)
            cropW cropH
          aspectRatio := ratio
          width := jsRound s.width
          height := jsRound (s.width / ratio)
          crop := some { x := 0, y := 0, width := 100, height := 100 } }

/-- C9: committing a crop rectangle on a sticker whose image decodes with
natural size (W, H): a full-default crop leaves the sticker unchanged;
otherwise the new `src` is the sub-rectangle rasterized at source-pixel
size (width/100·W, height/100·H), the aspect ratio is recomputed as that
sub-rectangle's pixel width over pixel height and is strictly positive,
and the crop resets to the full-image default — in particular a 50%×50%
crop of a 200×100 image yields a 100×50 export with aspect ratio 2. -/
theorem commitCrop_spec (s : Sticker) (decode : ImgSrc → Option DecodedImg)
    (crop : CropRect) (img : DecodedImg)
    (hcrop : s.crop = some crop) (hdec : decode s.src = some img)
    (hw : 0 < img.width) (hh : 0 < img.height)
    (hcw : 0 < crop.width) (hch : 0 < crop.height) :
    (crop = { x := 0, y := 0, width := 100, height := 100 } →
      commitCrop s decode = s) ∧
    (crop ≠ { x := 0, y := 0, width := 100, height := 100 } →
      (commitCrop s decode).src = ImgSrc.canvasExport
        (cropSubCanvas img.sample img.width img.height
          (crop.x / 100 * img.width) (crop.y / 100 * img.height)
          (crop.width / 100 * img.width) (crop.height / 100 * img.height))
        (crop.width / 100 * img.width) (crop.height / 100 * img.height) ∧
      (commitCrop s decode).aspectRatio =
        (crop.width / 100 * img.width) / (crop.height / 100 * img.height) ∧
      0 < (commitCrop s decode).aspectRatio ∧
      (commitCrop s decode).crop =
        some { x := 0, y := 0, width := 100, height := 100 }) ∧
    (crop ≠ { x := 0, y := 0, width := 100, height := 100 } →
      img.width = 200 → img.height = 100 → crop.width = 50 → crop.height = 50 →
      (commitCrop s decode).aspectRatio = 2 ∧
      crop.width / 100 * img.width = 100 ∧ crop.height / 100 * img.height = 50) := by
  have hratio_pos :
      0 < crop.width / 100 * img.width / (crop.height / 100 * img.height) := by
    positivity
  have hne0 :
      ¬ crop.width / 100 * img.width / (crop.height / 100 * img.height) = 0 :=
    ne_of_gt hratio_pos
  have hmain : crop ≠ { x := 0, y := 0, width := 100, height := 100 } →
      (commitCrop s decode).src = ImgSrc.canvasExport
        (cropSubCanvas img.sample img.width img.height
          (crop.x / 100 * img.width) (crop.y / 100 * img.height)
          (crop.width / 100 * img.width) (crop.height / 100 * img.height))
        (crop.width / 100 * img.width) (crop.height / 100 * img.height) ∧
      (commitCrop s decode).aspectRatio =
        (crop.width / 100 * img.width) / (crop.height / 100 * img.height) ∧
      0 < (commitCrop s decode).aspectRatio ∧
      (commitCrop s decode).crop =
        some { x := 0, y := 0, width := 100, height := 100 } := by
    intro hne
    have hcond : ¬ (crop.x = 0 ∧ crop.y = 0 ∧ crop.width = 100 ∧ crop.height = 100) := by
      intro hcon
      obtain ⟨e1, e2, e3, e4⟩ := hcon
      apply hne
      cases crop
      simp_all
    simp only [commitCrop, hcrop, hdec, if_neg hcond, if_neg hne0]
    exact ⟨trivial, trivial, hratio_pos, trivial⟩
  refine ⟨?_, hmain, ?_⟩
  · intro hdef
    subst hdef
    simp [commitCrop, hcrop]
  · intro hne h200 h100 h50w h50h
    have h2 := hmain hne
    refine ⟨?_, by rw [h50w, h200]; norm_num, by rw [h50h, h100]; norm_num⟩
    rw [h2.2.1, h50w, h50h, h200, h100]
    norm_num

/-- A 200×100 solid test image for the crop witness. -/
def cropImg : DecodedImg :=
  { sample := fun _ => some "#abcdef", width := 200, height := 100 }

/-- Decode environment serving `cropImg` for the "crop" source. -/
def decodeCrop : ImgSrc → Option DecodedImg := fun src =>
  match src with
  | ImgSrc.url s => if s = "crop" then some cropImg else none
  | ImgSrc.canvasExport _ _ _ => none

/-- A sticker carrying a pending 50%×50% crop of the 200×100 image. -/
def cropSticker : Sticker :=
  { sampleSticker with
    src := ImgSrc.url "crop",
    crop := some { x := 0, y := 0, width := 50, height := 50 } }

theorem commitCrop_spec_witness :
    (commitCrop cropSticker decodeCrop).aspectRatio = 2 ∧
    0 < (commitCrop cropSticker decodeCrop).aspectRatio ∧
    (commitCrop cropSticker decodeCrop).crop =
      some { x := 0, y := 0, width := 100, height := 100 } := by
  have h := commitCrop_spec cropSticker decodeCrop
    { x := 0, y := 0, width := 50, height := 50 } cropImg rfl rfl
    (by show (0 : ℚ) < 200; norm_num) (by show (0 : ℚ) < 100; norm_num)
    (by show (0 : ℚ) < 50; norm_num) (by show (0 : ℚ) < 50; norm_num)
  have hne : ({ x := 0, y := 0, width := 50, height := 50 } : CropRect) ≠
      { x := 0, y := 0, width := 100, height := 100 } := by
    intro he
    have := congrArg CropRect.width he
    norm_num at this
  have h2 := h.2.1 hne
  have h3 := h.2.2 hne (by norm_num [cropImg]) (by norm_num [cropImg])
    (by norm_num) (by norm_num)
  exact ⟨h3.1, h3.1 ▸ (by norm_num), h2.2.2.2⟩
